import Mathlib

/-!
Shallow embedding of `lab_report_generator.py` (PathLabReportGenerator).

The program is a Streamlit form bound to an fpdf `LabReportPDF` class.  We
embed the parts the verification needs:

* Python `float(...)` applied to the strings occurring here, as a parser
  into `ℚ` (plain decimal notation with optional sign and fraction;
  the exotic Python forms `1e5`, `inf`, `nan`, `1_0` are not modelled —
  none of them occur in the templates);
* the normal-values range parse of `add_test_table`
  (`float(nv.split("-")[0])`, `float(nv.split("-")[1].split(" ")[1])`),
  with the Python exception behaviour (an exception leaves the already
  assigned lower bound in place and the upper bound `None`);
* the per-row rendering of `add_test_table`, including the Python
  truthiness test `if float(result_str) and lower_value and upper_value:`
  and the fact that `set_font('Arial', '    ', 9)` raises in fpdf
  (both pyfpdf and fpdf2 reject a style string containing a space),
  which is caught by the bare `except:` resetting to the regular font;
* the filtering wrapper `print_if_has_result` shared by the CBC and LFT
  generators, the report-section loop of `create_pdf_report`
  (whose KFT and TFT branches are commented out in the source),
  the hardcoded templates of `load_report_template`,
  `check_page_break`, and the write/read/remove file lifecycle of `main`.

A PDF is modelled as the list of text cells drawn into it; each cell
records the column width passed to `self.cell` (60 = Test, 30 = Result,
25 = Units, 75 = Normal Values, 0 = full-width title lines) together with
the font style and size in effect when it was drawn.  Vertical layout
calls (`ln`, `line`, page breaks) carry no information for the properties
proved here and are omitted from the cell trace; `check_page_break` is
modelled separately on an explicit (page, y) state.
-/

namespace LabReport

/-- Python `s.split(sep)` for a one-character separator: splits at every
occurrence, keeping empty pieces (`"".split("-") == [""]`,
`" 1.2 x".split(" ") == ["", "1.2", "x"]`).  Implemented on character
lists so that it evaluates inside the kernel. -/
def pySplit (sep : Char) : List Char → List (List Char)
  | [] => [[]]
  | c :: rest =>
    let r := pySplit sep rest
    if c = sep then [] :: r
    else (c :: r.headD []) :: r.tail

/-- Python `s.strip()` / float's whitespace stripping, on character
lists. -/
def pyStripChars (l : List Char) : List Char :=
  ((l.dropWhile Char.isWhitespace).reverse.dropWhile Char.isWhitespace).reverse

/-- Python `s.strip()` as a string. -/
def pyStrip (s : String) : String := String.mk (pyStripChars s.data)

/-- Python `s.upper()` (the strings here are ASCII). -/
def pyUpper (s : String) : String := String.mk (s.data.map Char.toUpper)

/-- Value of a list of decimal digit characters. -/
def digitsToNat (l : List Char) : Nat :=
  l.foldl (fun a c => a * 10 + (c.toNat - 48)) 0

/-- Python `float(...)` on a character list: strip whitespace, optional
sign, decimal digits with an optional fractional part (`"14 "`, `" 46"`,
`"0.27"`, `".5"`, `"5."`).  Any other character (letters, `,`, `%`, a
second `.`) makes it raise, modelled as `none`.  The value of the decimal
numeral is returned exactly, as `mkRat mantissa 10^(fraction length)`;
the exotic Python forms `1e5`, `inf`, `nan`, `1_0` do not occur in this
program and are not modelled. -/
def parseFloatChars (cs0 : List Char) : Option ℚ :=
  let cs := pyStripChars cs0
  let signed : Bool × List Char :=
    match cs with
    | '-' :: rest => (true, rest)
    | '+' :: rest => (false, rest)
    | _ => (false, cs)
  let ip := signed.2.takeWhile Char.isDigit
  let rest := signed.2.dropWhile Char.isDigit
  let mag : Option (Nat × Nat) :=
    match rest with
    | [] => if ip.isEmpty then none else some (digitsToNat ip, 0)
    | '.' :: frac =>
      if (ip.isEmpty && frac.isEmpty) || !frac.all Char.isDigit then none
      else some (digitsToNat (ip ++ frac), frac.length)
    | _ => none
  mag.map (fun m =>
    mkRat (if signed.1 then -(m.1 : ℤ) else (m.1 : ℤ)) (10 ^ m.2))

/-- Python `float(s)` on a string. -/
def parseFloat (s : String) : Option ℚ := parseFloatChars s.data

/-- The normal-values parse at the top of the `add_test_table` row loop:

    lower_value = float(normal_values.split("-")[0])
    upper_value = float(normal_values.split("-")[1].split(" ")[1])

run inside `try: ... except: pass`, so a failure at any step leaves the
not-yet-assigned variables `None`: if the lower parse fails both are
`None`; if only the upper step fails (missing `"-"`, missing second
space-separated token, or unparsable token) the lower bound survives. -/
def parseRange (nv : String) : Option ℚ × Option ℚ :=
  let parts := pySplit '-' nv.data
  match parseFloatChars (parts.headD []) with
  | none => (none, none)
  | some lower =>
    match parts[1]? with
    | none => (some lower, none)
    | some p1 =>
      match ((pySplit ' ' p1)[1]?) with
      | none => (some lower, none)
      | some tok =>
        match parseFloatChars tok with
        | none => (some lower, none)
        | some upper => (some lower, some upper)

/-- One row of a report table (one row of the pandas DataFrame).
`result` is `none` when the cell holds a pandas missing value
(`pd.notna` fails), `some s` when it holds the string `s`. -/
structure Row where
  test : String
  result : Option String
  units : String
  normalValues : String
deriving DecidableEq

/-- `result_str = str(row['Result']) if pd.notna(row['Result']) else ''`. -/
def resultStr (r : Row) : String := r.result.getD ""

/-- Current font: (style string, size in points).  The family is always
`Arial` and is dropped. -/
abbrev Font := String × Nat

/-- A text cell drawn into the PDF: the width passed to `self.cell`, the
text, and the font style and size in effect when it was drawn. -/
structure Cell where
  width : Nat
  text : String
  style : String
  size : Nat
deriving DecidableEq

/-- fpdf accepts a style string made of the letters `B`/`I`/`U` (possibly
empty) and raises on anything else; in particular the style `'    '`
passed at lines 244 and 248 of the source raises. -/
def styleValid (s : String) : Bool :=
  s.data.all (fun c => c == 'B' || c == 'I' || c == 'U')

/-- `self.set_font('Arial', style, size)`: returns the new font, or raises
(`Except.error`) on an invalid style string. -/
def setFontE (style : String) (size : Nat) : Except Unit Font :=
  if styleValid style then .ok (style, size) else .error ()

/-- The three-line pattern `set_font(style); cell(30, 5, result_str);
set_font('')` used for the Result cell inside the `try:` block.  A raise
in `set_font` aborts before the cell is drawn. -/
def fontCellFont (st : String) (rs : String) : Except Unit (List Cell × Font) :=
  match setFontE st 9 with
  | .error e => .error e
  | .ok f1 =>
    match setFontE "" 9 with
    | .error e => .error e
    | .ok f2 => .ok ([⟨30, rs, f1.1, f1.2⟩], f2)

/-- Python truthiness of a float: `0.0` is falsy. -/
def pyTruthy (v : ℚ) : Bool := v != 0

/-- Python truthiness of `lower_value` / `upper_value`: `None` is falsy
and so is the float `0.0`. -/
def pyTruthyO : Option ℚ → Bool
  | none => false
  | some v => v != 0

/-- The `try:` block guarding the Result cell:

    if float(result_str) and lower_value and upper_value:
        if float(result_str) < lower_value: bold cell
        elif float(result_str) > upper_value: bold cell
        else: set_font('Arial', '    ', 9); cell; set_font regular
    else: set_font('Arial', '    ', 9); cell; set_font regular

`float(result_str)` raising is `Except.error`; so is the invalid
`'    '` style. -/
def tryBody (rs : String) (lo hi : Option ℚ) : Except Unit (List Cell × Font) :=
  match parseFloat rs with
  | none => .error ()
  | some v =>
    if pyTruthy v && pyTruthyO lo && pyTruthyO hi then
      if v < lo.getD 0 then fontCellFont "B" rs
      else if v > hi.getD 0 then fontCellFont "B" rs
      else fontCellFont "    " rs
    else fontCellFont "    " rs

/-- Rendering of the Result cell of one row, starting from font `f`:
`if result_str and result_str.strip():` enter the `try:` block, whose
bare `except:` handler does `set_font(''); cell(30, 5, result_str);
set_font('')`; otherwise draw the (empty) result in the current font. -/
def renderResult (rs : String) (lo hi : Option ℚ) (f : Font) : List Cell × Font :=
  if rs != "" && pyStrip rs != "" then
    match tryBody rs lo hi with
    | .ok out => out
    | .error _ => ([⟨30, rs, "", 9⟩], ("", 9))
  else ([⟨30, rs, f.1, f.2⟩], f)

/-- Assemble the four cells of a row: the Test cell is drawn in the font
current at row start, the Units and Normal Values cells in the font left
behind by the Result handling. -/
def rowOut (r : Row) (f : Font) (res : List Cell × Font) : List Cell × Font :=
  (⟨60, r.test, f.1, f.2⟩ :: res.1 ++
     [⟨25, r.units, res.2.1, res.2.2⟩, ⟨75, r.normalValues, res.2.1, res.2.2⟩],
   res.2)

/-- One iteration of the `for index, row in data.iterrows():` loop of
`add_test_table`. -/
def renderRow (f : Font) (r : Row) : List Cell × Font :=
  rowOut r f
    (renderResult (resultStr r) (parseRange r.normalValues).1
      (parseRange r.normalValues).2 f)

/-- The whole row loop, threading the current font. -/
def renderRows (f : Font) : List Row → List Cell × Font
  | [] => ([], f)
  | r :: rs =>
    ((renderRow f r).1 ++ (renderRows (renderRow f r).2 rs).1,
     (renderRows (renderRow f r).2 rs).2)

/-- `LabReportPDF.add_test_table(data, section_title)`: the optional
section title is drawn in bold 10pt, then `set_font('Arial', '', 9)` and
the row loop. -/
def add_test_table (rows : List Row) (sectionTitle : Option String) :
    List Cell × Font :=
  ((match sectionTitle with
    | some t => [⟨0, pyUpper t, "B", 10⟩]
    | none => []) ++ (renderRows ("", 9) rows).1,
   (renderRows ("", 9) rows).2)

/-- The row filter of `print_if_has_result`:
`subset['Result'].notna() & (subset['Result'].astype(str).str.strip() != '')`. -/
def hasResult (r : Row) : Bool :=
  match r.result with
  | none => false
  | some s => pyStrip s != ""

/-- The local helper `print_if_has_result(subset, section_title)` defined
identically inside `generate_cbc_report` and `generate_lft_report`:
filter out rows without a result and call `add_test_table` only when
something is left (so an all-empty section draws nothing, not even its
title). -/
def print_if_has_result (f : Font) (rows : List Row) (title : Option String) :
    List Cell × Font :=
  if (rows.filter hasResult).isEmpty then ([], f)
  else add_test_table (rows.filter hasResult) title

/-- `add_report_title(title)`: the upper-cased title in bold 14pt and the
four column-header cells in bold 9pt. -/
def add_report_title_cells (title : String) : List Cell :=
  [⟨0, pyUpper title, "B", 14⟩,
   ⟨60, "TEST", "B", 9⟩, ⟨30, "RESULT", "B", 9⟩,
   ⟨25, "UNITS", "B", 9⟩, ⟨75, "NORMAL VALUES", "B", 9⟩]

def basic_tests_cbc : List String := ["Haemoglobin", "RBC Count", "PCV"]

def rbc_indices : List String := ["MCV", "MCH", "MCHC", "RDW"]

def wbc_tests : List String :=
  ["Total WBC Count", "Neutrophils", "Lymphocytes", "Eosinophils",
   "Monocytes", "Basophils"]

def platelet_tests : List String := ["Platelet Count", "Platelets on Smear"]

def smear_tests : List String :=
  ["RBC Morphology", "WBCs on PS", "RDWSD", "RDWCV", "MPV", "P-LCR"]

def lft_tests : List String :=
  ["Bilirubin Total", "Bilirubin Direct", "Bilirubin Indirect", "S.G.O.T.",
   "S.G.P.T.", "Alkaline Phosphatase", "Total Proteins", "Albumin",
   "Globulin", "A / G Ratio", "G.G.T.P."]

/-- `generate_cbc_report`: title block, the five `print_if_has_result`
sections, and the instrument line in italic 8pt. -/
def generate_cbc_report (data : List Row) : List Cell :=
  add_report_title_cells "COMPLETE BLOOD COUNT(CBC)" ++
  (print_if_has_result ("", 9)
    (data.filter (fun r => basic_tests_cbc.contains r.test)) none).1 ++
  (print_if_has_result ("", 9)
    (data.filter (fun r => rbc_indices.contains r.test)) (some "RBC INDICES")).1 ++
  (print_if_has_result ("", 9)
    (data.filter (fun r => wbc_tests.contains r.test)) (some "TOTAL WBC COUNT")).1 ++
  (print_if_has_result ("", 9)
    (data.filter (fun r => platelet_tests.contains r.test)) (some "PLATELETS")).1 ++
  (print_if_has_result ("", 9)
    (data.filter (fun r => smear_tests.contains r.test))
    (some "PERIPHERAL BLOOD SMEAR")).1 ++
  [⟨0, "Test done on Nihon Kohden MEK- 6420K fully automated cell counter.", "I", 8⟩]

/-- `generate_lft_report`: title block, one `print_if_has_result` section
with no section title, and the instrument line. -/
def generate_lft_report (data : List Row) : List Cell :=
  add_report_title_cells "Liver Function Test (LFT)" ++
  (print_if_has_result ("", 9)
    (data.filter (fun r => lft_tests.contains r.test)) none).1 ++
  [⟨0, "Test Done on semi automated analyser Micro Lab RX-50.", "I", 8⟩]

/-- The report-section loop of `create_pdf_report`: for each selected
report name, the CBC branch calls `generate_cbc_report`, the LFT branch
calls `generate_lft_report`, and the KFT and TFT branches are commented
out in the source, so any other name contributes nothing.  Patient-info
blocks and inter-report page breaks carry no table cells and are
omitted. -/
def create_pdf_cells (d : String → List Row) : List String → List Cell
  | [] => []
  | name :: rest =>
    (if name = "Complete Blood Count (CBC)" then generate_cbc_report (d name)
     else if name = "Liver Function Test (LFT)" then generate_lft_report (d name)
     else []) ++ create_pdf_cells d rest

/-- Build one row of a template table: the `Result` column of every
template is the string `""`. -/
def mkRows (tests units normals : List String) : List Row :=
  (tests.zip (units.zip normals)).map
    (fun p => ⟨p.1, some "", p.2.1, p.2.2⟩)

/-- `load_report_template(report_name)`: the four hardcoded tables, plus
the generic three-row fallback of the final `else`. -/
def load_report_template (name : String) : List Row :=
  if name = "Complete Blood Count (CBC)" then
    mkRows
      ["Haemoglobin", "RBC Count", "PCV",
       "MCV", "MCH", "MCHC", "RDW",
       "Total WBC Count", "Neutrophils", "Lymphocytes",
       "Eosinophils", "Monocytes", "Basophils",
       "Platelet Count", "Platelets on Smear",
       "RBC Morphology", "WBCs on PS", "RDWSD", "RDWCV", "MPV", "P-LCR"]
      ["g%", "million/cu.mm.", "%",
       "fl", "pg", "%", "fl",
       "/cu.mm", "%", "%",
       "%", "%", "%",
       "lak/cu.mm", "",
       "", "", "fl", "%", "fl", "%"]
      ["Male: 14 - 16 g%, Female: 12 - 14 g%", "4.0 - 6.0 million/cu.mm", "35 - 60 %",
       "80 - 99 fl", "27 - 31 pg", "32 - 37 %", "9 - 17 fl",
       "4000 - 10,000 /cu.mm", "40 - 70 %", "20 - 45 %",
       "00 - 06 %", "00 - 08 %", "00 - 01 %",
       "150000 - 450000 /lak cu.mm", "Adequate On Smear",
       "Normocytic, Normochromic", "Normal", "37 - 54 fl", "11 - 16 %", "9 - 13 fl", "13 - 43 %"]
  else if name = "Liver Function Test (LFT)" then
    mkRows lft_tests
      ["mg/dl", "mg/dl", "mg/dl", "U/L", "IU/L", "IU/L",
       "gm/dl", "gm/dl", "gm/dl", "", "IU/L"]
      ["0.1 - 1.2 mg/dl", "0.1 - 0.4 mg/dl", "0.1 - 0.7 mg/dl",
       "0 - 46 U/L", "0 - 49 U/L", "15 - 112 IU/L",
       "6.0 - 8.3 gm/dl", "3.2 - 5.0 gm/dl", "2.0 - 3.5 gm/dl", "1.0 - 2.3", "25 - 43 IU/L"]
  else if name = "Kidney Function Test (KFT)" then
    mkRows
      ["Blood Urea", "Serum Creatinine", "Uric Acid",
       "Sodium", "Potassium", "Chloride"]
      ["mg/dl", "mg/dl", "mg/dl", "mEq/L", "mEq/L", "mEq/L"]
      ["15 - 45 mg/dl", "0.6 - 1.4 mg/dl", "2.4 - 7.0 mg/dl",
       "135 - 155 mEq/L", "3.5 - 5.5 mEq/L", "98 - 107 mEq/L"]
  else if name = "Thyroid Function Test (TFT)" then
    mkRows
      ["T3 (Triiodothyronine)", "T4 (Thyroxine)", "TSH"]
      ["ng/ml", "μg/dl", "μIU/ml"]
      ["0.8 - 2.0 ng/ml", "4.8 - 12.7 μg/dl", "0.27 - 4.2 μIU/ml"]
  else
    mkRows ["Test 1", "Test 2", "Test 3"]
      ["unit 1", "unit 2", "unit 3"]
      ["normal 1", "normal 2", "normal 3"]

/-- Current drawing position of the PDF: page number and y coordinate. -/
structure PdfPos where
  page : Nat
  y : ℚ
deriving DecidableEq

/-- y position after `add_page` runs the `header` override
(top margin 10, `ln(25)`, separator line, `ln(5)`); its exact value is
irrelevant to the page-break claim. -/
def headerEndY : ℚ := 40

/-- `LabReportPDF.check_page_break(height_needed)` on a page of height
`h`: `if current_y + height_needed > self.h - 60: add_page; return True`,
else `return False` leaving the state untouched. -/
def check_page_break (h : ℚ) (st : PdfPos) (heightNeeded : ℚ) :
    Bool × PdfPos :=
  if st.y + heightNeeded > h - 60 then (true, ⟨st.page + 1, headerEndY⟩)
  else (false, st)

/-- `f"{patient_name.replace(' ', '_')}_{timestamp}.pdf"` from
`create_pdf_report`. -/
def reportFilename (patientName ts : String) : String :=
  String.mk (patientName.data.map (fun c => if c = ' ' then '_' else c)) ++
    "_" ++ ts ++ ".pdf"

/-- The filesystem, as the set (list) of file names present on disk. -/
abbrev FileSystem := List String

/-- `pdf.output(filename)`: creates the file (overwriting keeps it
present). -/
def writeFile (fs : FileSystem) (f : String) : FileSystem :=
  if fs.contains f then fs else f :: fs

/-- `os.remove(filename)`, modelled as succeeding (the bare `except:`
around it only guards OS-level failures outside this model). -/
def removeFile (fs : FileSystem) (f : String) : FileSystem :=
  fs.filter (fun g => g != f)

/-- The generate-and-download interaction of `main`: `create_pdf_report`
writes the file, the download link is built from its bytes (no
filesystem change), then `if os.path.exists(pdf_filename):
os.remove(pdf_filename)`. -/
def generate_and_download (fs : FileSystem) (patientName ts : String) :
    FileSystem :=
  let fname := reportFilename patientName ts
  let fs1 := writeFile fs fname
  if fs1.contains fname then removeFile fs1 fname else fs1

/-- The title cell emitted by `generate_cbc_report` via `add_report_title`. -/
def cbcTitleCell : Cell := ⟨0, "COMPLETE BLOOD COUNT(CBC)", "B", 14⟩

/-- The title cell emitted by `generate_lft_report` via `add_report_title`. -/
def lftTitleCell : Cell := ⟨0, "LIVER FUNCTION TEST (LFT)", "B", 14⟩

/-! ### Helper lemmas -/

theorem fontCellFont_B (rs : String) :
    fontCellFont "B" rs = .ok ([⟨30, rs, "B", 9⟩], ("", 9)) := rfl

theorem fontCellFont_sp (rs : String) : fontCellFont "    " rs = .error () := rfl

theorem tryBody_ok_eq {rs : String} {lo hi : Option ℚ} {out : List Cell × Font}
    (h : tryBody rs lo hi = .ok out) : out = ([⟨30, rs, "B", 9⟩], ("", 9)) := by
  unfold tryBody at h
  cases hp : parseFloat rs with
  | none => simp only [hp] at h; cases h
  | some v =>
    simp only [hp] at h
    by_cases hg : (pyTruthy v && pyTruthyO lo && pyTruthyO hi) = true
    · rw [if_pos hg] at h
      by_cases h1 : v < lo.getD 0
      · rw [if_pos h1, fontCellFont_B] at h; cases h; rfl
      · rw [if_neg h1] at h
        by_cases h2 : v > hi.getD 0
        · rw [if_pos h2, fontCellFont_B] at h; cases h; rfl
        · rw [if_neg h2, fontCellFont_sp] at h; cases h
    · rw [if_neg hg, fontCellFont_sp] at h; cases h

theorem renderResult_singleton (rs : String) (lo hi : Option ℚ) :
    ∃ st, renderResult rs lo hi ("", 9) = ([⟨30, rs, st, 9⟩], ("", 9)) ∧
      (st = "" ∨ st = "B") := by
  unfold renderResult
  split
  · cases htb : tryBody rs lo hi with
    | ok out => exact ⟨"B", tryBody_ok_eq htb, Or.inr rfl⟩
    | error e => exact ⟨"", rfl, Or.inl rfl⟩
  · exact ⟨"", rfl, Or.inl rfl⟩

theorem renderRow_eq (r : Row) :
    ∃ st, renderRow ("", 9) r =
      (⟨60, r.test, "", 9⟩ ::
        [⟨30, resultStr r, st, 9⟩] ++ [⟨25, r.units, "", 9⟩, ⟨75, r.normalValues, "", 9⟩],
       ("", 9)) ∧ (st = "" ∨ st = "B") := by
  obtain ⟨st, he, hst⟩ := renderResult_singleton (resultStr r)
    (parseRange r.normalValues).1 (parseRange r.normalValues).2
  exact ⟨st, by simp [renderRow, rowOut, he], hst⟩

theorem renderRow_snd (r : Row) : (renderRow ("", 9) r).2 = ("", 9) := by
  obtain ⟨st, he, _⟩ := renderRow_eq r
  rw [he]

theorem renderRow_cells_cases {c : Cell} {r : Row}
    (hc : c ∈ (renderRow ("", 9) r).1) :
    ∃ st, (st = "" ∨ st = "B") ∧
      (c = ⟨60, r.test, "", 9⟩ ∨ c = ⟨30, resultStr r, st, 9⟩ ∨
       c = ⟨25, r.units, "", 9⟩ ∨ c = ⟨75, r.normalValues, "", 9⟩) := by
  obtain ⟨st, he, hst⟩ := renderRow_eq r
  rw [he] at hc
  refine ⟨st, hst, ?_⟩
  simp only [List.mem_append, List.mem_cons, List.not_mem_nil, or_false] at hc
  tauto

theorem renderRows_std (rows : List Row) :
    (renderRows ("", 9) rows).2 = ("", 9) ∧
    ∀ c ∈ (renderRows ("", 9) rows).1,
      c.size = 9 ∧ (c.width = 60 ∨ c.width = 30 ∨ c.width = 25 ∨ c.width = 75) ∧
      (c.width ≠ 30 → c.style = "") := by
  induction rows with
  | nil => exact ⟨rfl, by simp [renderRows]⟩
  | cons r rest ih =>
    refine ⟨?_, ?_⟩
    · show (renderRows (renderRow ("", 9) r).2 rest).2 = ("", 9)
      rw [renderRow_snd]; exact ih.1
    · intro c hc
      have hc2 : c ∈ (renderRow ("", 9) r).1 ++
          (renderRows (renderRow ("", 9) r).2 rest).1 := hc
      rw [renderRow_snd] at hc2
      rcases List.mem_append.1 hc2 with h | h
      · obtain ⟨st, hst, hcase⟩ := renderRow_cells_cases h
        rcases hcase with rfl | rfl | rfl | rfl
        · exact ⟨rfl, Or.inl rfl, fun _ => rfl⟩
        · exact ⟨rfl, Or.inr (Or.inl rfl), fun hw => absurd rfl hw⟩
        · exact ⟨rfl, Or.inr (Or.inr (Or.inl rfl)), fun _ => rfl⟩
        · exact ⟨rfl, Or.inr (Or.inr (Or.inr rfl)), fun _ => rfl⟩
      · exact ih.2 c h

theorem renderRows_mem (rows : List Row) : ∀ (f : Font) (c : Cell),
    c ∈ (renderRows f rows).1 →
    ∃ r, r ∈ rows ∧ ∃ f2, c ∈ (renderRow f2 r).1 := by
  induction rows with
  | nil => intro f c hc; simp [renderRows] at hc
  | cons r rest ih =>
    intro f c hc
    simp only [renderRows, List.mem_append] at hc
    rcases hc with h | h
    · exact ⟨r, by simp, f, h⟩
    · obtain ⟨r2, hr2, f2, hcf⟩ := ih _ _ h
      exact ⟨r2, by simp [hr2], f2, hcf⟩

theorem renderResult_fail (rs : String) (lo hi : Option ℚ)
    (h : parseFloat rs = none ∨ lo = none ∨ hi = none) :
    renderResult rs lo hi ("", 9) = ([⟨30, rs, "", 9⟩], ("", 9)) := by
  unfold renderResult
  split
  · have htb : tryBody rs lo hi = .error () := by
      unfold tryBody
      cases hp : parseFloat rs with
      | none => rfl
      | some v =>
        rcases h with h | h | h
        · rw [hp] at h; cases h
        · subst h; simp [pyTruthyO, fontCellFont_sp]
        · subst h; simp [pyTruthyO, fontCellFont_sp]
    rw [htb]
  · rfl

theorem renderRow_filter30 (r : Row) :
    ((renderRow ("", 9) r).1.filter (fun c => c.width == 30)) =
      (renderResult (resultStr r) (parseRange r.normalValues).1
        (parseRange r.normalValues).2 ("", 9)).1 := by
  obtain ⟨st, he, _⟩ := renderResult_singleton (resultStr r)
    (parseRange r.normalValues).1 (parseRange r.normalValues).2
  simp [renderRow, rowOut, he, List.filter]

theorem parseFloatChars_strip_ne {cs : List Char} {v : ℚ}
    (h : parseFloatChars cs = some v) : pyStripChars cs ≠ [] := by
  intro he
  simp [parseFloatChars, he] at h

theorem parseFloat_cond {s : String} {v : ℚ} (h : parseFloat s = some v) :
    (s != "" && pyStrip s != "") = true := by
  have hne : pyStripChars s.data ≠ [] := parseFloatChars_strip_ne h
  have h1 : s ≠ "" := by
    intro hs; subst hs; exact hne rfl
  have h2 : pyStrip s ≠ "" := by
    intro hs
    exact hne (congrArg String.data hs)
  simp [bne_iff_ne, h1, h2]

theorem filter_nil_of_all_false {α : Type} {p : α → Bool} {l : List α}
    (h : ∀ a ∈ l, p a = false) : l.filter p = [] :=
  List.filter_eq_nil_iff.2 (fun a ha => by simp [h a ha])

/-! ### Claims -/

/-- C1.  The claim says the Result cell is bold iff the parsed result lies
strictly outside the parsed bounds.  The code instead guards the comparison
with Python truthiness (`if float(result_str) and lower_value and
upper_value:`), so a parsed lower bound of `0.0` (or a result of `0`)
routes every row to the non-bold branch.  On the program's own LFT
template row `S.G.O.T.` (normal values `"0 - 46 U/L"`, which parse to
bounds 0 and 46) a result of `100` is strictly above the upper bound yet
is rendered in the regular font — contradicting the claim, the spec's
"Result bolding" sentence and the code's own footer text
`'Bold Indicates Abnormal Values'`. -/
theorem c1_bolding_not_iff_out_of_range :
    "0 - 46 U/L" ∈ (load_report_template "Liver Function Test (LFT)").map Row.normalValues ∧
    parseRange "0 - 46 U/L" = (some 0, some 46) ∧
    parseFloat "100" = some 100 ∧
    ((46 : ℚ) < 100) ∧
    ((renderRow ("", 9) ⟨"S.G.O.T.", some "100", "U/L", "0 - 46 U/L"⟩).1.filter
      (fun c => c.width == 30)) = [⟨30, "100", "", 9⟩] :=
  ⟨by decide, by decide, by decide, by decide, by decide⟩

/-- C4.  Bold-facing is confined to the Result column: in every table
rendered by `add_test_table`, each Test (width 60), Units (width 25) and
Normal Values (width 75) cell is drawn in the regular 9-point font, and
the font in effect when the rows are done is the regular 9-point font,
whatever the row contents. -/
theorem c4_non_result_cells_regular (rows : List Row) (t : Option String) :
    (∀ c ∈ (add_test_table rows t).1,
       (c.width = 60 ∨ c.width = 25 ∨ c.width = 75) → c.style = "" ∧ c.size = 9) ∧
    (add_test_table rows t).2 = ("", 9) := by
  have h := renderRows_std rows
  constructor
  · intro c hc hw
    have hrows : c ∈ (renderRows ("", 9) rows).1 → c.style = "" ∧ c.size = 9 := by
      intro h0
      obtain ⟨hsize, _, hstyle⟩ := h.2 c h0
      have hne : c.width ≠ 30 := by rcases hw with hw | hw | hw <;> omega
      exact ⟨hstyle hne, hsize⟩
    cases t with
    | none => exact hrows hc
    | some t0 =>
      have hc2 : c ∈ [(⟨0, pyUpper t0, "B", 10⟩ : Cell)] ++
          (renderRows ("", 9) rows).1 := hc
      rcases List.mem_append.1 hc2 with h0 | h0
      · simp at h0
        subst h0
        rcases hw with hw | hw | hw <;> simp at hw
      · exact hrows h0
  · exact h.1

/-- C4 witness: in the table for a single out-of-range Albumin row, the
Test cell is present in regular 9-point font. -/
theorem c4_witness :
    ((⟨60, "Albumin", "", 9⟩ : Cell).style = "" ∧
     (⟨60, "Albumin", "", 9⟩ : Cell).size = 9) :=
  (c4_non_result_cells_regular
      [⟨"Albumin", some "6.1", "gm/dl", "3.2 - 5.0 gm/dl"⟩] none).1
    ⟨60, "Albumin", "", 9⟩ (by decide) (Or.inl rfl)

/-- C5.  `check_page_break` returns `True` and starts a new page exactly
when `current_y + height_needed` exceeds the page height minus the
60-unit footer reserve, and otherwise returns `False` leaving page and
position unchanged. -/
theorem c5_page_break_iff (h y hn : ℚ) (p : Nat) :
    ((check_page_break h ⟨p, y⟩ hn).1 = true ↔ y + hn > h - 60) ∧
    (¬ y + hn > h - 60 → check_page_break h ⟨p, y⟩ hn = (false, ⟨p, y⟩)) ∧
    (y + hn > h - 60 → (check_page_break h ⟨p, y⟩ hn).2.page = p + 1) := by
  unfold check_page_break
  by_cases hc : y + hn > h - 60
  · simp [hc]
  · simp [hc]

/-- C5 witness: at `y = 250` a 20-unit block on an A4 page (height 297)
forces a break; at `y = 100` it does not and the state is unchanged. -/
theorem c5_witness :
    (check_page_break 297 ⟨0, 250⟩ 20).1 = true ∧
    check_page_break 297 ⟨0, 100⟩ 20 = (false, ⟨0, 100⟩) :=
  ⟨(c5_page_break_iff 297 250 20 0).1.mpr (by norm_num),
   (c5_page_break_iff 297 100 20 0).2.1 (by norm_num)⟩

/-- C6.  After a generate-and-download interaction the report file written
by `create_pdf_report` is gone again, and no other file's presence
changed. -/
theorem c6_no_report_file_left (fs : FileSystem) (pn ts : String) :
    reportFilename pn ts ∉ generate_and_download fs pn ts ∧
    ∀ g, g ≠ reportFilename pn ts →
      (g ∈ generate_and_download fs pn ts ↔ g ∈ fs) := by
  have hmem : reportFilename pn ts ∈ writeFile fs (reportFilename pn ts) := by
    unfold writeFile
    by_cases hf : fs.contains (reportFilename pn ts) = true
    · rw [if_pos hf]; exact List.elem_iff.1 hf
    · rw [if_neg hf]; exact List.mem_cons_self _ _
  have hcond : (writeFile fs (reportFilename pn ts)).contains
      (reportFilename pn ts) = true := List.elem_iff.2 hmem
  constructor
  · intro hin
    have hin2 : reportFilename pn ts ∈
        (writeFile fs (reportFilename pn ts)).filter
          (fun g => g != reportFilename pn ts) := by
      unfold generate_and_download at hin
      rw [if_pos hcond] at hin
      exact hin
    rcases List.mem_filter.1 hin2 with ⟨_, hbad⟩
    simp at hbad
  · intro g hg
    have hit : generate_and_download fs pn ts =
        (writeFile fs (reportFilename pn ts)).filter
          (fun g => g != reportFilename pn ts) := by
      unfold generate_and_download
      rw [if_pos hcond]
      rfl
    rw [hit]
    constructor
    · intro hin
      have hin2 := (List.mem_filter.1 hin).1
      unfold writeFile at hin2
      by_cases hf : fs.contains (reportFilename pn ts) = true
      · rwa [if_pos hf] at hin2
      · rw [if_neg hf] at hin2
        rcases List.mem_cons.1 hin2 with h0 | h0
        · exact absurd h0 hg
        · exact h0
    · intro hin
      refine List.mem_filter.2 ⟨?_, by simp [hg]⟩
      unfold writeFile
      by_cases hf : fs.contains (reportFilename pn ts) = true
      · rw [if_pos hf]; exact hin
      · rw [if_neg hf]; exact List.mem_cons_of_mem _ hin

/-- C6 witness: a concrete interaction removes the generated report and
leaves an unrelated file in place. -/
theorem c6_witness :
    reportFilename "JOHN DOE" "20251012_000000" ∉
      generate_and_download ["other.pdf"] "JOHN DOE" "20251012_000000" ∧
    ("other.pdf" ∈ generate_and_download ["other.pdf"] "JOHN DOE" "20251012_000000" ↔
      "other.pdf" ∈ ["other.pdf"]) :=
  ⟨(c6_no_report_file_left ["other.pdf"] "JOHN DOE" "20251012_000000").1,
   (c6_no_report_file_left ["other.pdf"] "JOHN DOE" "20251012_000000").2
     "other.pdf" (by decide)⟩

/-- C8.  `add_test_table` is total on arbitrary row contents: every row
draws exactly one Result-column cell, carrying the result string
unchanged, and whenever the result or the normal-values range fails to
parse (non-numeric result, comma-containing bound, textual range, missing
dash) the caught exception leaves that cell in the regular font. -/
theorem c8_total_regular_on_parse_failure (r : Row) :
    ∃ st, ((renderRow ("", 9) r).1.filter (fun c => c.width == 30)) =
        [⟨30, resultStr r, st, 9⟩] ∧ (st = "" ∨ st = "B") ∧
      ((parseFloat (resultStr r) = none ∨ (parseRange r.normalValues).1 = none ∨
        (parseRange r.normalValues).2 = none) → st = "") := by
  obtain ⟨st, he, hst⟩ := renderResult_singleton (resultStr r)
    (parseRange r.normalValues).1 (parseRange r.normalValues).2
  refine ⟨st, ?_, hst, ?_⟩
  · rw [renderRow_filter30, he]
  · intro hfail
    have h2 := renderResult_fail (resultStr r) _ _ hfail
    rw [he] at h2
    simpa using h2

/-- C8 witness: the CBC row whose bound `"10,000"` cannot be parsed
renders its (numeric, above-range) result unchanged in regular font. -/
theorem c8_witness :
    ((renderRow ("", 9)
        ⟨"Total WBC Count", some "11000", "/cu.mm", "4000 - 10,000 /cu.mm"⟩).1.filter
      (fun c => c.width == 30)) = [⟨30, "11000", "", 9⟩] := by
  obtain ⟨st, h1, _, h3⟩ := c8_total_regular_on_parse_failure
    ⟨"Total WBC Count", some "11000", "/cu.mm", "4000 - 10,000 /cu.mm"⟩
  have hst : st = "" := h3 (Or.inr (Or.inr (by decide)))
  rw [hst] at h1
  exact h1

/-- C9 counterexample.  The claim quantifies over every row whose range
parses to bounds L and U; when the string yields L > U (here
`"5 - 2 x"`, L = 5, U = 2) a result equal to L is rendered bold, not
regular. -/
theorem c9_counterexample :
    parseFloat "5" = some 5 ∧ parseRange "5 - 2 x" = (some 5, some 2) ∧
    ((renderRow ("", 9) ⟨"X", some "5", "u", "5 - 2 x"⟩).1.filter
      (fun c => c.width == 30)) = [⟨30, "5", "B", 9⟩] :=
  ⟨by decide, by decide, by decide⟩

/-- C9 (amended: the parsed bounds must satisfy L ≤ U).  The range is
boundary-inclusive: a result equal to either parsed bound is rendered in
the regular font. -/
theorem c9_boundary_regular (r : Row) (v L U : ℚ)
    (hv : parseFloat (resultStr r) = some v)
    (hR : parseRange r.normalValues = (some L, some U))
    (hLU : L ≤ U) (hb : v = L ∨ v = U) :
    ((renderRow ("", 9) r).1.filter (fun c => c.width == 30)) =
      [⟨30, resultStr r, "", 9⟩] := by
  rw [renderRow_filter30]
  have hlo : (parseRange r.normalValues).1 = some L := by rw [hR]
  have hhi : (parseRange r.normalValues).2 = some U := by rw [hR]
  rw [hlo, hhi]
  have htb : tryBody (resultStr r) (some L) (some U) = .error () := by
    unfold tryBody
    simp only [hv]
    by_cases hg : (pyTruthy v && pyTruthyO (some L) && pyTruthyO (some U)) = true
    · rw [if_pos hg]
      have hnlt : ¬ v < (some L).getD 0 := by
        simp only [Option.getD_some]
        rcases hb with rfl | rfl
        · exact lt_irrefl _
        · exact not_lt.2 hLU
      rw [if_neg hnlt]
      have hngt : ¬ v > (some U).getD 0 := by
        simp only [Option.getD_some]
        rcases hb with rfl | rfl
        · exact not_lt.2 hLU
        · exact lt_irrefl _
      rw [if_neg hngt]
      exact fontCellFont_sp _
    · rw [if_neg hg]
      exact fontCellFont_sp _
  unfold renderResult
  rw [if_pos (parseFloat_cond hv), htb]

/-- C9 witness: the MCH row with result exactly at the lower bound of
`"27 - 31 pg"` is rendered in regular font. -/
theorem c9_witness :
    ((renderRow ("", 9) ⟨"MCH", some "27", "pg", "27 - 31 pg"⟩).1.filter
      (fun c => c.width == 30)) = [⟨30, "27", "", 9⟩] :=
  c9_boundary_regular ⟨"MCH", some "27", "pg", "27 - 31 pg"⟩ 27 27 31
    (by decide) (by decide) (by decide) (Or.inl rfl)

/-! ### C2, C3, C7 -/

theorem create_cons (d : String → List Row) (name : String) (rest : List String) :
    create_pdf_cells d (name :: rest) =
      (if name = "Complete Blood Count (CBC)" then generate_cbc_report (d name)
       else if name = "Liver Function Test (LFT)" then generate_lft_report (d name)
       else []) ++ create_pdf_cells d rest := rfl

theorem mem_cbc_title (data : List Row) :
    cbcTitleCell ∈ generate_cbc_report data := by
  have h : cbcTitleCell ∈ add_report_title_cells "COMPLETE BLOOD COUNT(CBC)" := by
    decide
  unfold generate_cbc_report
  simp only [List.mem_append]
  tauto

theorem mem_lft_title (data : List Row) :
    lftTitleCell ∈ generate_lft_report data := by
  have h : lftTitleCell ∈ add_report_title_cells "Liver Function Test (LFT)" := by
    decide
  unfold generate_lft_report
  simp only [List.mem_append]
  tauto

theorem print_if_size (f : Font) (rows : List Row) (t : Option String) :
    ∀ c ∈ (print_if_has_result f rows t).1, c.size = 10 ∨ c.size = 9 := by
  intro c hc
  unfold print_if_has_result at hc
  by_cases he : (rows.filter hasResult).isEmpty = true
  · rw [if_pos he] at hc; simp at hc
  · rw [if_neg he] at hc
    cases t with
    | none =>
      have hc2 : c ∈ (renderRows ("", 9) (rows.filter hasResult)).1 := hc
      exact Or.inr ((renderRows_std _).2 c hc2).1
    | some t0 =>
      have hc2 : c ∈ [(⟨0, pyUpper t0, "B", 10⟩ : Cell)] ++
          (renderRows ("", 9) (rows.filter hasResult)).1 := hc
      rcases List.mem_append.1 hc2 with h0 | h0
      · simp at h0; subst h0; exact Or.inl rfl
      · exact Or.inr ((renderRows_std _).2 c h0).1

theorem cbcTitle_notmem_lft (data : List Row) :
    cbcTitleCell ∉ generate_lft_report data := by
  intro hc
  unfold generate_lft_report at hc
  simp only [List.mem_append] at hc
  rcases hc with (hc | hc) | hc
  · exact absurd hc (by decide)
  · rcases print_if_size _ _ _ _ hc with h | h <;> simp [cbcTitleCell] at h
  · exact absurd hc (by decide)

theorem lftTitle_notmem_cbc (data : List Row) :
    lftTitleCell ∉ generate_cbc_report data := by
  intro hc
  unfold generate_cbc_report at hc
  simp only [List.mem_append] at hc
  rcases hc with ((((((hc | hc) | hc) | hc) | hc) | hc) | hc)
  · exact absurd hc (by decide)
  · rcases print_if_size _ _ _ _ hc with h | h <;> simp [lftTitleCell] at h
  · rcases print_if_size _ _ _ _ hc with h | h <;> simp [lftTitleCell] at h
  · rcases print_if_size _ _ _ _ hc with h | h <;> simp [lftTitleCell] at h
  · rcases print_if_size _ _ _ _ hc with h | h <;> simp [lftTitleCell] at h
  · rcases print_if_size _ _ _ _ hc with h | h <;> simp [lftTitleCell] at h
  · exact absurd hc (by decide)

theorem create_mem_cbc (d : String → List Row) (sel : List String) :
    cbcTitleCell ∈ create_pdf_cells d sel ↔
      "Complete Blood Count (CBC)" ∈ sel := by
  induction sel with
  | nil => simp [create_pdf_cells]
  | cons name rest ih =>
    rw [create_cons]
    by_cases h1 : name = "Complete Blood Count (CBC)"
    · subst h1
      rw [if_pos rfl]
      simp [mem_cbc_title]
    · rw [if_neg h1]
      by_cases h2 : name = "Liver Function Test (LFT)"
      · subst h2
        rw [if_pos rfl]
        simp only [List.mem_append, List.mem_cons]
        constructor
        · rintro (hc | hc)
          · exact absurd hc (cbcTitle_notmem_lft _)
          · exact Or.inr (ih.1 hc)
        · rintro (hc | hc)
          · exact absurd hc (by decide)
          · exact Or.inr (ih.2 hc)
      · rw [if_neg h2, List.nil_append, ih]
        simp only [List.mem_cons]
        constructor
        · intro h; exact Or.inr h
        · rintro (hc | hc)
          · exact absurd hc.symm h1
          · exact hc

theorem create_mem_lft (d : String → List Row) (sel : List String) :
    lftTitleCell ∈ create_pdf_cells d sel ↔
      "Liver Function Test (LFT)" ∈ sel := by
  induction sel with
  | nil => simp [create_pdf_cells]
  | cons name rest ih =>
    rw [create_cons]
    by_cases h1 : name = "Complete Blood Count (CBC)"
    · subst h1
      rw [if_pos rfl]
      simp only [List.mem_append, List.mem_cons]
      constructor
      · rintro (hc | hc)
        · exact absurd hc (lftTitle_notmem_cbc _)
        · exact Or.inr (ih.1 hc)
      · rintro (hc | hc)
        · exact absurd hc (by decide)
        · exact Or.inr (ih.2 hc)
    · rw [if_neg h1]
      by_cases h2 : name = "Liver Function Test (LFT)"
      · subst h2
        rw [if_pos rfl]
        simp [mem_lft_title]
      · rw [if_neg h2, List.nil_append, ih]
        simp only [List.mem_cons]
        constructor
        · intro h; exact Or.inr h
        · rintro (hc | hc)
          · exact absurd hc.symm h2
          · exact hc

theorem create_nil (d : String → List Row) : ∀ sel : List String,
    "Complete Blood Count (CBC)" ∉ sel → "Liver Function Test (LFT)" ∉ sel →
    create_pdf_cells d sel = [] := by
  intro sel
  induction sel with
  | nil => intro _ _; rfl
  | cons name rest ih =>
    intro h1 h2
    rw [create_cons]
    rw [if_neg (fun he => h1 (List.mem_cons.2 (Or.inl he.symm)))]
    rw [if_neg (fun he => h2 (List.mem_cons.2 (Or.inl he.symm)))]
    rw [List.nil_append]
    exact ih (fun h => h1 (List.mem_cons_of_mem _ h))
      (fun h => h2 (List.mem_cons_of_mem _ h))

/-- C2 counterexample.  The claim says every selected panel drawn from the
four predefined names gets a report section; selecting only the KFT panel
produces a document with no report-section cells at all, because the KFT
(and TFT) branches of `create_pdf_report` are commented out in the
source. -/
theorem c2_counterexample :
    create_pdf_cells load_report_template ["Kidney Function Test (KFT)"] = [] := by
  decide

/-- C2 (amended: only the CBC and LFT panels have generators).  A
selected CBC or LFT panel always contributes its report section (title
block included), while selected KFT or TFT panels are skipped; a
selection containing neither CBC nor LFT yields no report-section cells
at all. -/
theorem c2_selected_panels (d : String → List Row) (sel : List String) :
    (cbcTitleCell ∈ create_pdf_cells d sel ↔
      "Complete Blood Count (CBC)" ∈ sel) ∧
    (lftTitleCell ∈ create_pdf_cells d sel ↔
      "Liver Function Test (LFT)" ∈ sel) ∧
    ("Complete Blood Count (CBC)" ∉ sel → "Liver Function Test (LFT)" ∉ sel →
      create_pdf_cells d sel = []) :=
  ⟨create_mem_cbc d sel, create_mem_lft d sel, create_nil d sel⟩

/-- C2 witness: with the CBC panel selected the CBC section title is in
the document, and a TFT-only selection produces no section cells. -/
theorem c2_witness :
    cbcTitleCell ∈ create_pdf_cells load_report_template
      ["Complete Blood Count (CBC)", "Thyroid Function Test (TFT)"] ∧
    create_pdf_cells load_report_template ["Thyroid Function Test (TFT)"] = [] :=
  ⟨(c2_selected_panels load_report_template
      ["Complete Blood Count (CBC)", "Thyroid Function Test (TFT)"]).1.mpr
      (by decide),
   (c2_selected_panels load_report_template
      ["Thyroid Function Test (TFT)"]).2.2 (by decide) (by decide)⟩

/-- C3.  `load_report_template` returns the four fixed tables — 21 rows
for CBC, 11 for LFT, 6 for KFT, 3 for TFT — whose Test, Units and Normal
Values columns are exactly the listed constants, the Result column is the
empty string in every row, and repeated calls with the same name return
the same table (the function is pure, so the last conjunct is
definitional). -/
theorem c3_templates_fixed :
    (load_report_template "Complete Blood Count (CBC)").length = 21 ∧
    (load_report_template "Liver Function Test (LFT)").length = 11 ∧
    (load_report_template "Kidney Function Test (KFT)").length = 6 ∧
    (load_report_template "Thyroid Function Test (TFT)").length = 3 ∧
    (load_report_template "Complete Blood Count (CBC)").map Row.test =
      ["Haemoglobin", "RBC Count", "PCV", "MCV", "MCH", "MCHC", "RDW",
       "Total WBC Count", "Neutrophils", "Lymphocytes", "Eosinophils",
       "Monocytes", "Basophils", "Platelet Count", "Platelets on Smear",
       "RBC Morphology", "WBCs on PS", "RDWSD", "RDWCV", "MPV", "P-LCR"] ∧
    (load_report_template "Liver Function Test (LFT)").map Row.test = lft_tests ∧
    (load_report_template "Kidney Function Test (KFT)").map Row.test =
      ["Blood Urea", "Serum Creatinine", "Uric Acid", "Sodium", "Potassium",
       "Chloride"] ∧
    (load_report_template "Thyroid Function Test (TFT)").map Row.test =
      ["T3 (Triiodothyronine)", "T4 (Thyroxine)", "TSH"] ∧
    (load_report_template "Complete Blood Count (CBC)").map Row.units =
      ["g%", "million/cu.mm.", "%", "fl", "pg", "%", "fl",
       "/cu.mm", "%", "%", "%", "%", "%", "lak/cu.mm", "",
       "", "", "fl", "%", "fl", "%"] ∧
    (load_report_template "Liver Function Test (LFT)").map Row.units =
      ["mg/dl", "mg/dl", "mg/dl", "U/L", "IU/L", "IU/L",
       "gm/dl", "gm/dl", "gm/dl", "", "IU/L"] ∧
    (load_report_template "Kidney Function Test (KFT)").map Row.units =
      ["mg/dl", "mg/dl", "mg/dl", "mEq/L", "mEq/L", "mEq/L"] ∧
    (load_report_template "Thyroid Function Test (TFT)").map Row.units =
      ["ng/ml", "μg/dl", "μIU/ml"] ∧
    (load_report_template "Complete Blood Count (CBC)").map Row.normalValues =
      ["Male: 14 - 16 g%, Female: 12 - 14 g%", "4.0 - 6.0 million/cu.mm",
       "35 - 60 %", "80 - 99 fl", "27 - 31 pg", "32 - 37 %", "9 - 17 fl",
       "4000 - 10,000 /cu.mm", "40 - 70 %", "20 - 45 %",
       "00 - 06 %", "00 - 08 %", "00 - 01 %",
       "150000 - 450000 /lak cu.mm", "Adequate On Smear",
       "Normocytic, Normochromic", "Normal", "37 - 54 fl", "11 - 16 %",
       "9 - 13 fl", "13 - 43 %"] ∧
    (load_report_template "Liver Function Test (LFT)").map Row.normalValues =
      ["0.1 - 1.2 mg/dl", "0.1 - 0.4 mg/dl", "0.1 - 0.7 mg/dl",
       "0 - 46 U/L", "0 - 49 U/L", "15 - 112 IU/L",
       "6.0 - 8.3 gm/dl", "3.2 - 5.0 gm/dl", "2.0 - 3.5 gm/dl",
       "1.0 - 2.3", "25 - 43 IU/L"] ∧
    (load_report_template "Kidney Function Test (KFT)").map Row.normalValues =
      ["15 - 45 mg/dl", "0.6 - 1.4 mg/dl", "2.4 - 7.0 mg/dl",
       "135 - 155 mEq/L", "3.5 - 5.5 mEq/L", "98 - 107 mEq/L"] ∧
    (load_report_template "Thyroid Function Test (TFT)").map Row.normalValues =
      ["0.8 - 2.0 ng/ml", "4.8 - 12.7 μg/dl", "0.27 - 4.2 μIU/ml"] ∧
    (∀ name ∈ ["Complete Blood Count (CBC)", "Liver Function Test (LFT)",
        "Kidney Function Test (KFT)", "Thyroid Function Test (TFT)"],
      ∀ r ∈ load_report_template name, r.result = some "") ∧
    (∀ name : String, load_report_template name = load_report_template name) := by
  repeat' apply And.intro
  all_goals first
  | exact fun _ => rfl
  | decide

/-- C3 witness: the TSH row of the TFT template has an empty Result. -/
theorem c3_witness :
    (⟨"TSH", some "", "μIU/ml", "0.27 - 4.2 μIU/ml"⟩ : Row).result = some "" :=
  c3_templates_fixed.2.2.2.2.2.2.2.2.2.2.2.2.2.2.2.2.1
    "Thyroid Function Test (TFT)" (by decide)
    ⟨"TSH", some "", "μIU/ml", "0.27 - 4.2 μIU/ml"⟩ (by decide)

/-- C7.  `print_if_has_result` (shared by the CBC and LFT generators)
never renders a row whose Result is missing or whitespace-only, and a
section all of whose rows lack results is omitted entirely, section title
included; in particular a CBC table with no results at all reduces to the
title block and the instrument line. -/
theorem c7_empty_rows_omitted (f : Font) (rows : List Row) (t : String)
    (data : List Row) :
    ((∀ r ∈ rows, hasResult r = false) →
      (print_if_has_result f rows (some t)).1 = []) ∧
    (∀ c ∈ (print_if_has_result f rows (some t)).1,
       c = ⟨0, pyUpper t, "B", 10⟩ ∨
       ∃ r, r ∈ rows ∧ hasResult r = true ∧ ∃ f2, c ∈ (renderRow f2 r).1) ∧
    ((∀ r ∈ data, hasResult r = false) →
       generate_cbc_report data =
         add_report_title_cells "COMPLETE BLOOD COUNT(CBC)" ++
         [⟨0, "Test done on Nihon Kohden MEK- 6420K fully automated cell counter.",
           "I", 8⟩]) := by
  refine ⟨?_, ?_, ?_⟩
  · intro hall
    have hnil : rows.filter hasResult = [] := filter_nil_of_all_false hall
    unfold print_if_has_result
    rw [hnil]
    rfl
  · intro c hc
    unfold print_if_has_result at hc
    by_cases he : (rows.filter hasResult).isEmpty = true
    · rw [if_pos he] at hc; simp at hc
    · rw [if_neg he] at hc
      have hc2 : c ∈ [(⟨0, pyUpper t, "B", 10⟩ : Cell)] ++
          (renderRows ("", 9) (rows.filter hasResult)).1 := hc
      rcases List.mem_append.1 hc2 with h0 | h0
      · simp at h0; exact Or.inl h0
      · obtain ⟨r, hr, f2, hcf⟩ := renderRows_mem _ _ _ h0
        obtain ⟨hr1, hr2⟩ := List.mem_filter.1 hr
        exact Or.inr ⟨r, hr1, hr2, f2, hcf⟩
  · intro hall
    have hpif : ∀ (q : Row → Bool) (t0 : Option String),
        (print_if_has_result ("", 9) (data.filter q) t0).1 = [] := by
      intro q t0
      have hnil : (data.filter q).filter hasResult = [] :=
        filter_nil_of_all_false (fun r hr => hall r (List.mem_filter.1 hr).1)
      unfold print_if_has_result
      rw [hnil]
      rfl
    unfold generate_cbc_report
    rw [hpif, hpif, hpif, hpif, hpif]
    simp

/-- C7 witness: two RBC-indices rows with empty and whitespace-only
results produce nothing, not even the "RBC INDICES" section title. -/
theorem c7_witness :
    (print_if_has_result ("", 9)
      [⟨"MCV", some "", "fl", "80 - 99 fl"⟩, ⟨"MCH", some " ", "pg", "27 - 31 pg"⟩]
      (some "RBC INDICES")).1 = [] :=
  (c7_empty_rows_omitted ("", 9)
      [⟨"MCV", some "", "fl", "80 - 99 fl"⟩, ⟨"MCH", some " ", "pg", "27 - 31 pg"⟩]
      "RBC INDICES" []).1 (by decide)

end LabReport
